import Mathlib

/-!
Verification of the netconnectd daemon client
(`src/octoprint_netconnectd/__init__.py`).

The core of the plugin is `_send_message`: it serializes one command into the
daemon's NUL-terminated JSON wire format, reads a framed reply chunk by chunk,
decodes it, and maps the daemon's `result`/`error` signaling onto a
`(flag, content)` pair.  The wrappers (`_get_wifi_list`, `_get_country_list`,
`_get_status`, `_configure_and_select_wifi`) and the composite `on_api_get`
read path are thin layers over it.  This file embeds those functions as Lean
definitions and proves the specified properties about them.

Modelling conventions:
* JSON values are the inductive `Json` below; decoded response objects are
  association lists `List (String × Json)` (Python dicts from `json.loads`
  have unique keys, so first-match lookup coincides with dict lookup).
* Python exceptions that the wrappers can raise are the inductive `PyExc`;
  fallible Python code becomes `Except PyExc _`.
* The socket layer and the JSON decoder are abstracted into `TxnBehavior`:
  either some stage inside the `try` block of `_send_message` raised an
  exception with a detail string (`raise`), or a frame was received and
  decoded into a response object (`respond`).  The byte-level receive loop
  itself is modelled separately (`recvLoop`) for the framing claims.
* Python string `repr` of decoded values (used by the unknown-response
  message `"Unknown response from netconnectd: {response!r}"`) is modelled
  by `Json.pyRepr` in Python 3 style.
-/

/-- JSON values as decoded by `json.loads`: null, booleans, numbers
(integers suffice for this protocol), strings, arrays and objects. -/
inductive Json where
  | null : Json
  | bool (b : Bool) : Json
  | num (n : Int) : Json
  | str (s : String) : Json
  | arr (elems : List Json) : Json
  | obj (fields : List (String × Json)) : Json

/-- Python exceptions that the embedded client code can raise. -/
inductive PyExc where
  | runtimeError (msg : String) : PyExc
  | keyError (key : String) : PyExc
  | typeError (msg : String) : PyExc
deriving DecidableEq

/-- Lookup of a key in a decoded JSON object, first match
(Python dicts decoded from JSON have unique keys). -/
def assocLookup : List (String × Json) → String → Option Json
  | [], _ => none
  | (k, v) :: rest, key => if k = key then some v else assocLookup rest key

/-- Single-quote character, used by the Python repr rendering. -/
def pyQuote : String := String.singleton (Char.ofNat 39)

/-- Opening brace character of a Python dict repr. -/
def braceL : String := String.singleton (Char.ofNat 123)

/-- Closing brace character of a Python dict repr. -/
def braceR : String := String.singleton (Char.ofNat 125)

mutual

/-- Python `repr` of a decoded JSON value (Python 3 rendering):
`None`, `True`/`False`, bare integers, single-quoted strings,
`[a, b]` lists and key-value dicts. -/
def Json.pyRepr : Json → String
  | .null => "None"
  | .bool true => "True"
  | .bool false => "False"
  | .num n => toString n
  | .str s => pyQuote ++ s ++ pyQuote
  | .arr elems => "[" ++ pyReprElems elems ++ "]"
  | .obj fields => braceL ++ pyReprFields fields ++ braceR

/-- Comma-separated reprs of the elements of a Python list. -/
def pyReprElems : List Json → String
  | [] => ""
  | [x] => Json.pyRepr x
  | x :: xs => Json.pyRepr x ++ ", " ++ pyReprElems xs

/-- Comma-separated `key: value` reprs of the items of a Python dict. -/
def pyReprFields : List (String × Json) → String
  | [] => ""
  | [(k, v)] => pyQuote ++ k ++ pyQuote ++ ": " ++ Json.pyRepr v
  | (k, v) :: fs => pyQuote ++ k ++ pyQuote ++ ": " ++ Json.pyRepr v ++ ", " ++ pyReprFields fs

end

/-- Environment of one `_send_message` transaction, abstracting the socket
and the JSON decoder: either some stage inside the `try` block (connect,
sendall, recv, `json.loads`) raised an exception whose string form is
`detail`, or a complete frame was received and decoded into `response`. -/
inductive TxnBehavior where
  | raise (detail : String) : TxnBehavior
  | respond (response : List (String × Json)) : TxnBehavior

/-- Dispatch on the decoded response object, mirroring
`__init__.py:301-316`: `"result" in response` is checked first and returns
`(True, response["result"])`; otherwise `"error" in response` returns
`(False, response["error"])`; otherwise the unknown-response failure
`(False, "Unknown response from netconnectd: <repr>")`. -/
def interpretResponse (response : List (String × Json)) : Bool × Json :=
  match assocLookup response "result" with
  | some v => (true, v)
  | none =>
    match assocLookup response "error" with
    | some e => (false, e)
    | none =>
      (false, Json.str ("Unknown response from netconnectd: " ++ Json.pyRepr (Json.obj response)))

/-- Result of `_send_message` (`__init__.py:274-324`): the `except Exception`
handler at line 318 converts any exception raised inside the `try` block into
`(False, "Error while talking to netconnectd: <detail>")`; a decoded response
is dispatched by `interpretResponse`.  The function is total: no exception
escapes, and it holds no state, so one call cannot affect the next. -/
def sendMessageResult : TxnBehavior → Bool × Json
  | .raise detail => (false, Json.str ("Error while talking to netconnectd: " ++ detail))
  | .respond response => interpretResponse response

/-- C2: a decoded response that contains both the key `result` and the key
`error` deterministically yields success carrying the `result` value; the
`error` branch is not taken, because `"result" in response` is checked
first. -/
theorem result_key_takes_precedence (response : List (String × Json)) (v e : Json)
    (hres : assocLookup response "result" = some v)
    (herr : assocLookup response "error" = some e) :
    sendMessageResult (.respond response) = (true, v) := by
  simp [sendMessageResult, interpretResponse, hres]

theorem result_key_takes_precedence_witness :
    assocLookup [("result", Json.num 1), ("error", Json.str "boom")] "result" = some (Json.num 1) ∧
    sendMessageResult (.respond [("result", Json.num 1), ("error", Json.str "boom")]) =
      (true, Json.num 1) :=
  ⟨rfl, result_key_takes_precedence [("result", Json.num 1), ("error", Json.str "boom")]
    (Json.num 1) (Json.str "boom") rfl rfl⟩

/-- C5: any exception raised during the transaction (connect failure,
timeout, I/O error, malformed JSON) is converted by the shared transaction
function into the failure `(False, "Error while talking to netconnectd:
<detail>")`; `sendMessageResult` is a total function carrying no state, so no
exception escapes it and a failed call leaves the client usable. -/
theorem transaction_wraps_exceptions (detail : String) :
    sendMessageResult (.raise detail) =
      (false, Json.str ("Error while talking to netconnectd: " ++ detail)) := rfl

/-- C6: a decoded response containing neither `result` nor `error` yields a
failure (never a crash) whose message includes the repr of the response, in
the form `Unknown response from netconnectd: <raw>`. -/
theorem unknown_response_failure (response : List (String × Json))
    (hres : assocLookup response "result" = none)
    (herr : assocLookup response "error" = none) :
    sendMessageResult (.respond response) =
      (false, Json.str ("Unknown response from netconnectd: " ++
        Json.pyRepr (Json.obj response))) := by
  simp [sendMessageResult, interpretResponse, hres, herr]

theorem unknown_response_failure_witness :
    assocLookup [("foo", Json.num 1)] "result" = none ∧
    sendMessageResult (.respond [("foo", Json.num 1)]) =
      (false, Json.str ("Unknown response from netconnectd: " ++
        Json.pyRepr (Json.obj [("foo", Json.num 1)]))) :=
  ⟨rfl, unknown_response_failure [("foo", Json.num 1)] rfl rfl⟩

/-! ### Byte-level receive loop

The receive loop of `_send_message` (`__init__.py:290-298`):

    buffer = []
    while True:
        chunk = sock.recv(16)
        if chunk:
            buffer.append(chunk)
            if chunk.endswith("\x00"):
                break
    data = "".join(buffer).strip()[:-1]

`recvLoop` runs this loop against an oracle listing the byte strings returned
by the successive `sock.recv(16)` calls; once the listed chunks are
exhausted, the peer has closed the connection and every further `recv`
returns the empty byte string.  Bytes are naturals; `0` is the NUL
terminator.  The loop itself has no termination guarantee, so it is embedded
with explicit fuel counting loop iterations: a result of `none` means the
loop has not terminated within that many iterations. -/

/-- Receive loop of `_send_message` with explicit fuel.  An empty chunk (what
`recv` returns at end-of-stream) is neither appended nor tested for the
terminator — the loop just runs again, exactly as in the source.  A nonempty
chunk is appended to the buffer and, if its last byte is NUL, the loop breaks
and yields the accumulated buffer. -/
def recvLoop : Nat → List (List Nat) → List Nat → Option (List Nat)
  | 0, _, _ => none
  | fuel + 1, chunks, buffer =>
    match chunks with
    | [] => recvLoop fuel [] buffer
    | c :: rest =>
      if c = [] then recvLoop fuel rest buffer
      else if c.getLast? = some 0 then some (buffer ++ c)
      else recvLoop fuel rest (buffer ++ c)

/-- Python `str.strip` whitespace set. -/
def isPySpace (b : Nat) : Bool :=
  b = 32 || b = 9 || b = 10 || b = 11 || b = 12 || b = 13

/-- Python `str.strip`: drop whitespace bytes from both ends. -/
def pyStrip (bs : List Nat) : List Nat :=
  ((bs.dropWhile isPySpace).reverse.dropWhile isPySpace).reverse

/-- Post-processing of the accumulated buffer before JSON decoding,
`__init__.py:298-300`: `"".join(buffer).strip()[:-1]` then a second
`.strip()` inside the `json.loads` call. -/
def extractData (buf : List Nat) : List Nat :=
  pyStrip (pyStrip buf).dropLast

/-- Receive phase of one transaction: run the loop on the oracle chunks with
the given fuel, then post-process the buffer into the bytes handed to
`json.loads`. -/
def receiveData (fuel : Nat) (chunks : List (List Nat)) : Option (List Nat) :=
  (recvLoop fuel chunks []).map extractData

/-- C1 (code behavior at the failing input): when no received chunk ends with
the NUL terminator — in particular when the daemon closes the connection
before sending a terminator, after which every `recv` returns the empty byte
string forever — the receive loop never produces a result, for any number of
iterations.  The loop treats an empty chunk as nothing to append and simply
calls `recv` again, so end-of-stream makes it spin indefinitely instead of
failing. -/
theorem recv_loop_never_terminates_without_nul (fuel : Nat) :
    ∀ (chunks : List (List Nat)) (buffer : List Nat),
      (∀ c ∈ chunks, c.getLast? ≠ some 0) →
      recvLoop fuel chunks buffer = none := by
  induction fuel with
  | zero => intro chunks buffer _; rfl
  | succ n ih =>
    intro chunks buffer h
    match chunks with
    | [] =>
      show recvLoop n [] buffer = none
      exact ih [] buffer (by intro c hc; cases hc)
    | c :: rest =>
      by_cases hc : c = []
      · subst hc
        show recvLoop n rest buffer = none
        exact ih rest buffer fun d hd => h d (List.mem_cons_of_mem _ hd)
      · have hlast : c.getLast? ≠ some 0 := h c (List.mem_cons_self c rest)
        simp only [recvLoop, if_neg hc, if_neg hlast]
        exact ih rest (buffer ++ c) fun d hd => h d (List.mem_cons_of_mem _ hd)

theorem recv_loop_never_terminates_without_nul_witness :
    (∀ c ∈ [[97, 98, 99]], List.getLast? c ≠ some 0) ∧
    recvLoop 1000 [[97, 98, 99]] [] = none :=
  ⟨by decide, recv_loop_never_terminates_without_nul 1000 [[97, 98, 99]] [] (by decide)⟩

/-- Helper for C8: on a stream whose concatenation is a frame `s` whose last
byte is NUL and whose earlier bytes are never NUL, delivered as nonempty
chunks, the receive loop terminates within one iteration per chunk and
accumulates exactly the whole frame. -/
theorem recvLoop_accumulates_frame :
    ∀ (cs : List (List Nat)) (acc : List Nat),
      cs ≠ [] → (∀ c ∈ cs, c ≠ []) →
      cs.flatten.getLast? = some 0 → (0 : Nat) ∉ cs.flatten.dropLast →
      recvLoop cs.length cs acc = some (acc ++ cs.flatten) := by
  intro cs
  induction cs with
  | nil => intro acc h; exact absurd rfl h
  | cons c rest ih =>
    intro acc _ hne hterm hbody
    have hc : c ≠ [] := hne c (List.mem_cons_self c rest)
    match rest with
    | [] =>
      have hcterm : c.getLast? = some 0 := by simpa using hterm
      simp only [List.length_cons, List.length_nil, recvLoop, if_neg hc, if_pos hcterm]
      simp
    | c' :: rest' =>
      have hc' : c' ≠ [] := hne c' (List.mem_cons_of_mem _ (List.mem_cons_self c' rest'))
      have hjoin_ne : (List.flatten (c' :: rest')) ≠ [] := by
        intro hnil
        have hsplit : c' = [] ∧ ∀ l ∈ rest', l = [] := by simpa using hnil
        exact hc' hsplit.1
      have hjoin_eq : List.flatten (c :: c' :: rest') = c ++ List.flatten (c' :: rest') := by
        simp [List.flatten]
      have hdrop : (List.flatten (c :: c' :: rest')).dropLast
          = c ++ (List.flatten (c' :: rest')).dropLast := by
        rw [hjoin_eq, List.dropLast_append_of_ne_nil _ hjoin_ne]
      have hterm' : (List.flatten (c' :: rest')).getLast? = some 0 := by
        rw [hjoin_eq, List.getLast?_append_of_ne_nil _ hjoin_ne] at hterm
        exact hterm
      have hbody' : (0 : Nat) ∉ (List.flatten (c' :: rest')).dropLast := by
        rw [hdrop] at hbody
        intro hmem
        exact hbody (List.mem_append_right _ hmem)
      have hclast : c.getLast? ≠ some 0 := by
        intro heq
        obtain ⟨hcne, hx⟩ := List.mem_getLast?_eq_getLast (Option.mem_def.mpr heq)
        have hmemc : (0 : Nat) ∈ c := hx ▸ List.getLast_mem hcne
        rw [hdrop] at hbody
        exact hbody (List.mem_append_left _ hmemc)
      have step : recvLoop (c :: c' :: rest').length (c :: c' :: rest') acc
          = recvLoop (c' :: rest').length (c' :: rest') (acc ++ c) := by
        simp only [List.length_cons, recvLoop, if_neg hc, if_neg hclast]
      rw [step, ih (acc ++ c) (by simp) (fun d hd => hne d (List.mem_cons_of_mem _ hd))
        hterm' hbody', hjoin_eq, List.append_assoc]

/-- C8: response reconstruction is chunking-independent.  For any frame `s`
terminated by its only NUL byte, and any two partitions of `s` into
successive nonempty chunks (chunk size 1, 3, 16 or the whole buffer being
particular cases), the receive phase terminates on both and yields the same
post-processed bytes — those of `s` itself — so the decoded object is the
same in all cases. -/
theorem chunking_independence (s : List Nat) (cs1 cs2 : List (List Nat))
    (h1 : cs1.flatten = s) (h2 : cs2.flatten = s)
    (hne1 : cs1 ≠ []) (hne2 : cs2 ≠ [])
    (hc1 : ∀ c ∈ cs1, c ≠ []) (hc2 : ∀ c ∈ cs2, c ≠ [])
    (hterm : s.getLast? = some 0) (hbody : (0 : Nat) ∉ s.dropLast) :
    receiveData cs1.length cs1 = receiveData cs2.length cs2 ∧
    receiveData cs1.length cs1 = some (extractData s) := by
  have e1 : recvLoop cs1.length cs1 [] = some s := by
    have := recvLoop_accumulates_frame cs1 [] hne1 hc1 (h1 ▸ hterm) (h1 ▸ hbody)
    simpa [h1] using this
  have e2 : recvLoop cs2.length cs2 [] = some s := by
    have := recvLoop_accumulates_frame cs2 [] hne2 hc2 (h2 ▸ hterm) (h2 ▸ hbody)
    simpa [h2] using this
  constructor
  · simp [receiveData, e1, e2]
  · simp [receiveData, e1]

theorem chunking_independence_witness :
    receiveData 3 [[123, 34, 97], [34, 58, 49], [125, 0]] = receiveData 1 [[123, 34, 97, 34, 58, 49, 125, 0]] ∧
    receiveData 3 [[123, 34, 97], [34, 58, 49], [125, 0]] =
      some (extractData [123, 34, 97, 34, 58, 49, 125, 0]) :=
  chunking_independence [123, 34, 97, 34, 58, 49, 125, 0]
    [[123, 34, 97], [34, 58, 49], [125, 0]] [[123, 34, 97, 34, 58, 49, 125, 0]]
    (by decide) (by decide) (by decide) (by decide)
    (by decide) (by decide) (by decide) (by decide)

/-! ### Command wrappers

The private helpers of the plugin call `_send_message` and reshape its
`(flag, content)` result, raising `RuntimeError` on a failed flag and plain
`KeyError`/`TypeError` on malformed payloads.  Each wrapper below takes the
`TxnBehavior` of the transaction(s) it performs. -/

/-- Python subscription `value[key]` for a string key: on a dict it returns
the entry or raises `KeyError`; on any other value it raises `TypeError`. -/
def Json.getItem : Json → String → Except PyExc Json
  | .obj fields, key =>
    match assocLookup fields key with
    | some v => .ok v
    | none => .error (.keyError key)
  | _, _ => .error (.typeError "value is not subscriptable by string")

/-- Python iteration `for x in value`: lists yield their elements, strings
their characters, dicts their keys; other values raise `TypeError`. -/
def pyIter : Json → Except PyExc (List Json)
  | .arr elems => .ok elems
  | .str s => .ok (s.toList.map fun ch => Json.str (String.singleton ch))
  | .obj fields => .ok (fields.map fun p => Json.str p.1)
  | _ => .error (.typeError "value is not iterable")

/-- Python string concatenation `prefixStr + content`: succeeds when the
content is a string, raises `TypeError` otherwise (the failure `content` of
a transaction is concatenated to the wrapper's message prefix). -/
def pyConcatMsg (s : String) : Json → Except PyExc String
  | .str t => .ok (s ++ t)
  | _ => .error (.typeError "cannot concatenate str to non-str")

/-- Python truthiness of a decoded JSON value, as used by
`if status["wifi"]["present"]:`. -/
def pyTruthy : Json → Bool
  | .null => false
  | .bool b => b
  | .num n => n != 0
  | .str s => s != ""
  | .arr elems => !elems.isEmpty
  | .obj fields => !fields.isEmpty

/-- Entry built from one element of the `list_wifi` result array
(`__init__.py:192-199`): the keys `ssid`, `address`, `signal`, `encrypted`
are subscripted in source order — a missing key raises `KeyError` — and the
descriptor's `quality` field is the element's `signal` value. -/
def mkWifiEntry (wifi : Json) : Except PyExc (List (String × Json)) := do
  let ssid ← wifi.getItem "ssid"
  let address ← wifi.getItem "address"
  let quality ← wifi.getItem "signal"
  let encrypted ← wifi.getItem "encrypted"
  pure [("ssid", ssid), ("address", address), ("quality", quality), ("encrypted", encrypted)]

/-- Accumulation loop `for wifi in content: result.append(...)` of
`_get_wifi_list`: builds one entry per element, stopping at the first raised
exception. -/
def buildWifiEntries : List Json → Except PyExc (List (List (String × Json)))
  | [] => .ok []
  | w :: ws => do
    let e ← mkWifiEntry w
    let rest ← buildWifiEntries ws
    pure (e :: rest)

/-- Embedding of `_get_wifi_list` (`__init__.py:180-200`) applied to the
behavior of its `list_wifi` transaction: a failed flag raises
`RuntimeError("Error while listing wifi: " + content)`, otherwise the result
array is reshaped element by element. -/
def getWifiList (b : TxnBehavior) : Except PyExc (List (List (String × Json))) := do
  let (flag, content) := sendMessageResult b
  if !flag then
    let msg ← pyConcatMsg "Error while listing wifi: " content
    throw (.runtimeError msg)
  else
    let wifis ← pyIter content
    buildWifiEntries wifis

/-- Embedding of `_get_status` (`__init__.py:221-228`): a failed flag raises
`RuntimeError("Error while querying status: " + content)`, otherwise the
status content is returned unchanged. -/
def getStatus (b : TxnBehavior) : Except PyExc Json := do
  let (flag, content) := sendMessageResult b
  if !flag then
    let msg ← pyConcatMsg "Error while querying status: " content
    throw (.runtimeError msg)
  else
    pure content

/-- Body of the `try` block of `_get_country_list` (`__init__.py:205-214`):
a failed flag raises `RuntimeError("Error while getting countries wifi: " +
content)`; otherwise `content["countries"]` is iterated into a list and the
dict `{"country": content["country"], "countries": countries}` is built. -/
def getCountryListAttempt (b : TxnBehavior) : Except PyExc (Json × List Json) := do
  let (flag, content) := sendMessageResult b
  if !flag then
    let msg ← pyConcatMsg "Error while getting countries wifi: " content
    throw (.runtimeError msg)
  else
    let cs ← content.getItem "countries"
    let countries ← pyIter cs
    let country ← content.getItem "country"
    pure (country, countries)

/-- Embedding of `_get_country_list` (`__init__.py:202-219`): the whole body
is wrapped in `try ... except Exception`, and any exception is downgraded to
the empty result `{"country": "", "countries": []}` with a logged
warning. -/
def getCountryList (b : TxnBehavior) : List (String × Json) :=
  match getCountryListAttempt b with
  | .ok (country, countries) => [("country", country), ("countries", Json.arr countries)]
  | .error _ => [("country", Json.str ""), ("countries", Json.arr [])]

/-- Behavior of the daemon across one compound operation: the `TxnBehavior`
of the transaction issued for each command name and payload. -/
def DaemonModel : Type := String → Json → TxnBehavior

/-- Result of `_send_message(message, data)` against a daemon model. -/
def sendMessage (d : DaemonModel) (message : String) (data : Json) : Bool × Json :=
  sendMessageResult (d message data)

/-- Payload `dict(ssid=ssid, psk=psk, force=force)` of the `config_wifi`
command (`__init__.py:231`). -/
def configWifiPayload (ssid psk : String) (force : Bool) : Json :=
  Json.obj [("ssid", Json.str ssid), ("psk", Json.str psk), ("force", Json.bool force)]

/-- Embedding of `_configure_and_select_wifi` (`__init__.py:230-241`),
instrumented with the list of commands actually sent, in order: it sends
`config_wifi`; on a failed flag it raises `RuntimeError("Error while
configuring wifi: " + content)` without sending anything else; otherwise it
sends `start_wifi` and on a failed flag raises `RuntimeError("Error while
selecting wifi: " + content)`. -/
def configureAndSelectWifi (d : DaemonModel) (ssid psk : String) (force : Bool) :
    Except PyExc Unit × List String :=
  let (flag, content) := sendMessage d "config_wifi" (configWifiPayload ssid psk force)
  if !flag then
    (do
      let msg ← pyConcatMsg "Error while configuring wifi: " content
      throw (.runtimeError msg), ["config_wifi"])
  else
    let (flag2, content2) := sendMessage d "start_wifi" (Json.obj [])
    if !flag2 then
      (do
        let msg ← pyConcatMsg "Error while selecting wifi: " content2
        throw (.runtimeError msg), ["config_wifi", "start_wifi"])
    else
      (.ok (), ["config_wifi", "start_wifi"])

/-- Embedding of the composite read path of `on_api_get`
(`__init__.py:87-92`), instrumented with the list of commands sent, in
order: fetch `status` first; only when `status["wifi"]["present"]` is truthy
fetch `list_wifi` (with the empty payload, `force` defaulting to `False`),
otherwise use the empty network list without a second transaction. -/
def statusThenWifis (d : DaemonModel) :
    Except PyExc (Json × List (List (String × Json))) × List String :=
  match getStatus (d "status" (Json.obj [])) with
  | .error e => (.error e, ["status"])
  | .ok status =>
    match (do let w ← status.getItem "wifi"; w.getItem "present" : Except PyExc Json) with
    | .error e => (.error e, ["status"])
    | .ok present =>
      if pyTruthy present then
        match getWifiList (d "list_wifi" (Json.obj [])) with
        | .ok wifis => (.ok (status, wifis), ["status", "list_wifi"])
        | .error e => (.error e, ["status", "list_wifi"])
      else
        (.ok (status, []), ["status"])

/-! ### Wrapper theorems -/

/-- C3: proof of the two-step structure of `_configure_and_select_wifi`. -/
theorem config_wifi_before_start_wifi (d : DaemonModel) (ssid psk : String) (force : Bool) :
    (∀ e, sendMessage d "config_wifi" (configWifiPayload ssid psk force) = (false, Json.str e) →
       configureAndSelectWifi d ssid psk force =
         (.error (.runtimeError ("Error while configuring wifi: " ++ e)), ["config_wifi"])) ∧
    ((sendMessage d "config_wifi" (configWifiPayload ssid psk force)).1 = true →
       (configureAndSelectWifi d ssid psk force).2 = ["config_wifi", "start_wifi"] ∧
       (∀ e, sendMessage d "start_wifi" (Json.obj []) = (false, Json.str e) →
          (configureAndSelectWifi d ssid psk force).1 =
            .error (.runtimeError ("Error while selecting wifi: " ++ e))) ∧
       (∀ v, sendMessage d "start_wifi" (Json.obj []) = (true, v) →
          (configureAndSelectWifi d ssid psk force).1 = .ok ())) := by
  constructor
  · intro e he
    simp [configureAndSelectWifi, he, pyConcatMsg, throw, throwThe, MonadExceptOf.throw,
      Bind.bind, Except.bind]
  · intro h1
    rcases hc : sendMessage d "config_wifi" (configWifiPayload ssid psk force) with ⟨flag, content⟩
    rw [hc] at h1
    simp only at h1
    subst h1
    refine ⟨?_, ?_, ?_⟩
    · rcases hc2 : sendMessage d "start_wifi" (Json.obj []) with ⟨flag2, content2⟩
      cases flag2 <;>
        simp [configureAndSelectWifi, hc, hc2, pyConcatMsg, throw, throwThe,
          MonadExceptOf.throw, Bind.bind, Except.bind]
    · intro e he2
      simp [configureAndSelectWifi, hc, he2, pyConcatMsg, throw, throwThe,
        MonadExceptOf.throw, Bind.bind, Except.bind]
    · intro v hv
      simp [configureAndSelectWifi, hc, hv]

theorem config_wifi_before_start_wifi_witness :
    (configureAndSelectWifi
        (fun cmd _ => if cmd = "config_wifi"
          then TxnBehavior.respond [("error", Json.str "nope")]
          else TxnBehavior.respond [("result", Json.null)])
        "home" "secret" false =
      (.error (.runtimeError ("Error while configuring wifi: " ++ "nope")), ["config_wifi"])) ∧
    ((configureAndSelectWifi
        (fun _ _ => TxnBehavior.respond [("result", Json.null)])
        "home" "secret" false).2 = ["config_wifi", "start_wifi"]) :=
  ⟨(config_wifi_before_start_wifi
      (fun cmd _ => if cmd = "config_wifi"
        then TxnBehavior.respond [("error", Json.str "nope")]
        else TxnBehavior.respond [("result", Json.null)])
      "home" "secret" false).1 "nope" rfl,
   ((config_wifi_before_start_wifi
      (fun _ _ => TxnBehavior.respond [("result", Json.null)])
      "home" "secret" false).2 rfl).1⟩

/-- C4: proof that `_get_country_list` downgrades every failure — daemon
error reply, transport failure, decode failure, malformed payload — to the
empty successful result `{"country": "", "countries": []}`, and returns the
daemon's current country and country list exactly when the attempt inside
the `try` block succeeds; in particular the daemon reply
`{"error": "unknown command"}` yields the empty result. -/
theorem country_list_downgrades_errors :
    (∀ b : TxnBehavior,
       getCountryList b = [("country", Json.str ""), ("countries", Json.arr [])] ∨
       ∃ country countries, getCountryListAttempt b = .ok (country, countries) ∧
         getCountryList b = [("country", country), ("countries", Json.arr countries)]) ∧
    getCountryList (.respond [("error", Json.str "unknown command")]) =
      [("country", Json.str ""), ("countries", Json.arr [])] := by
  refine ⟨fun b => ?_, rfl⟩
  rcases hr : getCountryListAttempt b with e | ⟨country, countries⟩
  · exact Or.inl (by simp [getCountryList, hr])
  · exact Or.inr ⟨country, countries, rfl, by simp [getCountryList, hr]⟩

/-- C7: proof of the composite read path of `on_api_get`: `status` is always
fetched first; when the snapshot's `wifi.present` field is the boolean `p`,
the `list_wifi` transaction is issued precisely when `p` is true, and
otherwise the empty network list is used with no second transaction. -/
theorem status_fetched_then_wifi_list (d : DaemonModel) (status : Json) (p : Bool)
    (hs : getStatus (d "status" (Json.obj [])) = .ok status)
    (hp : (do
        let w ← status.getItem "wifi"
        w.getItem "present" : Except PyExc Json) = Except.ok (Json.bool p)) :
    (p = true →
       statusThenWifis d =
         (match getWifiList (d "list_wifi" (Json.obj [])) with
          | .ok wifis => (.ok (status, wifis), ["status", "list_wifi"])
          | .error e => (.error e, ["status", "list_wifi"]))) ∧
    (p = false → statusThenWifis d = (.ok (status, []), ["status"])) := by
  constructor
  · intro hptrue
    subst hptrue
    simp [statusThenWifis, hs, hp, pyTruthy]
  · intro hpfalse
    subst hpfalse
    simp [statusThenWifis, hs, hp, pyTruthy]

theorem status_fetched_then_wifi_list_witness :
    (statusThenWifis
        (fun cmd _ => if cmd = "status"
          then TxnBehavior.respond
            [("result", Json.obj [("wifi", Json.obj [("present", Json.bool true)])])]
          else TxnBehavior.respond [("result", Json.arr [])]) =
      (.ok (Json.obj [("wifi", Json.obj [("present", Json.bool true)])], []),
        ["status", "list_wifi"])) ∧
    (statusThenWifis
        (fun cmd _ => if cmd = "status"
          then TxnBehavior.respond
            [("result", Json.obj [("wifi", Json.obj [("present", Json.bool false)])])]
          else TxnBehavior.respond [("result", Json.arr [])]) =
      (.ok (Json.obj [("wifi", Json.obj [("present", Json.bool false)])], []),
        ["status"])) :=
  ⟨((status_fetched_then_wifi_list
      (fun cmd _ => if cmd = "status"
        then TxnBehavior.respond
          [("result", Json.obj [("wifi", Json.obj [("present", Json.bool true)])])]
        else TxnBehavior.respond [("result", Json.arr [])])
      (Json.obj [("wifi", Json.obj [("present", Json.bool true)])]) true rfl rfl).1 rfl).trans rfl,
   (status_fetched_then_wifi_list
      (fun cmd _ => if cmd = "status"
        then TxnBehavior.respond
          [("result", Json.obj [("wifi", Json.obj [("present", Json.bool false)])])]
        else TxnBehavior.respond [("result", Json.arr [])])
      (Json.obj [("wifi", Json.obj [("present", Json.bool false)])]) false rfl rfl).2 rfl⟩

/-- Predicate used to state C10: the element is a dict carrying all four
keys subscripted by `_get_wifi_list`. -/
def hasWifiKeys : Json → Bool
  | .obj fields =>
    (assocLookup fields "ssid").isSome && (assocLookup fields "address").isSome &&
      (assocLookup fields "signal").isSome && (assocLookup fields "encrypted").isSome
  | _ => false

/-- Descriptor built from a complete element: `ssid`, `address`, `quality`
(taken from the element's `signal` value) and `encrypted`. -/
def wifiDescriptor : Json → List (String × Json)
  | .obj fields =>
    [("ssid", (assocLookup fields "ssid").getD Json.null),
     ("address", (assocLookup fields "address").getD Json.null),
     ("quality", (assocLookup fields "signal").getD Json.null),
     ("encrypted", (assocLookup fields "encrypted").getD Json.null)]
  | _ => []

theorem mkWifiEntry_of_hasWifiKeys (w : Json) (h : hasWifiKeys w = true) :
    mkWifiEntry w = .ok (wifiDescriptor w) := by
  match w with
  | .null | .bool _ | .num _ | .str _ | .arr _ => simp [hasWifiKeys] at h
  | .obj fields =>
    simp only [hasWifiKeys, Bool.and_eq_true, Option.isSome_iff_exists] at h
    obtain ⟨⟨⟨⟨s, hs⟩, ⟨a, ha⟩⟩, ⟨q, hq⟩⟩, ⟨e, he⟩⟩ := h
    simp [mkWifiEntry, wifiDescriptor, Json.getItem, hs, ha, hq, he,
      Bind.bind, Except.bind, Pure.pure, Except.pure]

theorem buildWifiEntries_of_hasWifiKeys (ws : List Json)
    (h : ∀ w ∈ ws, hasWifiKeys w = true) :
    buildWifiEntries ws = .ok (ws.map wifiDescriptor) := by
  induction ws with
  | nil => rfl
  | cons w ws ih =>
    have h1 := mkWifiEntry_of_hasWifiKeys w (h w (List.mem_cons_self w ws))
    have h2 := ih fun x hx => h x (List.mem_cons_of_mem _ hx)
    simp [buildWifiEntries, h1, h2, Bind.bind, Except.bind, Pure.pure, Except.pure]

theorem mkWifiEntry_missing_key (fields : List (String × Json))
    (h : hasWifiKeys (Json.obj fields) = false) :
    ∃ key, key ∈ ["ssid", "address", "signal", "encrypted"] ∧
      mkWifiEntry (Json.obj fields) = .error (.keyError key) := by
  rcases hs : assocLookup fields "ssid" with _ | s
  · exact ⟨"ssid", by simp,
      by simp [mkWifiEntry, Json.getItem, hs, Bind.bind, Except.bind]⟩
  rcases ha : assocLookup fields "address" with _ | a
  · exact ⟨"address", by simp,
      by simp [mkWifiEntry, Json.getItem, hs, ha, Bind.bind, Except.bind]⟩
  rcases hq : assocLookup fields "signal" with _ | q
  · exact ⟨"signal", by simp,
      by simp [mkWifiEntry, Json.getItem, hs, ha, hq, Bind.bind, Except.bind]⟩
  rcases he : assocLookup fields "encrypted" with _ | e
  · exact ⟨"encrypted", by simp,
      by simp [mkWifiEntry, Json.getItem, hs, ha, hq, he, Bind.bind, Except.bind]⟩
  · exfalso
    simp [hasWifiKeys, hs, ha, hq, he] at h

theorem buildWifiEntries_missing_key (ws : List Json)
    (hobj : ∀ w ∈ ws, ∃ fields, w = Json.obj fields)
    (hmiss : ∃ w ∈ ws, hasWifiKeys w = false) :
    ∃ key, key ∈ ["ssid", "address", "signal", "encrypted"] ∧
      buildWifiEntries ws = .error (.keyError key) := by
  induction ws with
  | nil => rcases hmiss with ⟨w, hw, _⟩; cases hw
  | cons w ws ih =>
    by_cases hk : hasWifiKeys w = true
    · have hmiss2 : ∃ x ∈ ws, hasWifiKeys x = false := by
        rcases hmiss with ⟨x, hx, hfx⟩
        rcases List.mem_cons.mp hx with rfl | hx2
        · rw [hk] at hfx; cases hfx
        · exact ⟨x, hx2, hfx⟩
      obtain ⟨key, hkey, hbe⟩ := ih (fun x hx => hobj x (List.mem_cons_of_mem _ hx)) hmiss2
      exact ⟨key, hkey, by simp [buildWifiEntries, mkWifiEntry_of_hasWifiKeys w hk, hbe,
        Bind.bind, Except.bind]⟩
    · obtain ⟨fields, rfl⟩ := hobj w (List.mem_cons_self w ws)
      obtain ⟨key, hkey, hme⟩ :=
        mkWifiEntry_missing_key fields (Bool.not_eq_true _ ▸ hk)
      exact ⟨key, hkey, by simp [buildWifiEntries, hme, Bind.bind, Except.bind]⟩

/-- C10: `_get_wifi_list` is not total over malformed success payloads.
For every result array of dict elements: when every element carries the keys
`ssid`, `address`, `signal` and `encrypted`, the wrapper returns one
descriptor per element with the `quality` field taken from the element's
`signal` value; and whenever any element lacks any of the four keys, the
wrapper raises a bare `KeyError` for one of them to its caller — not the
wrapped `Error while listing wifi` runtime failure — so descriptors are
returned only when every element is complete. -/
theorem wifi_list_key_lookup_error
    (wifis : List Json) (hobj : ∀ w ∈ wifis, ∃ fields, w = Json.obj fields) :
    ((∀ w ∈ wifis, hasWifiKeys w = true) →
       getWifiList (.respond [("result", Json.arr wifis)]) = .ok (wifis.map wifiDescriptor)) ∧
    ((∃ w ∈ wifis, hasWifiKeys w = false) →
       ∃ key, key ∈ ["ssid", "address", "signal", "encrypted"] ∧
         getWifiList (.respond [("result", Json.arr wifis)]) = .error (.keyError key)) := by
  constructor
  · intro hall
    simp [getWifiList, sendMessageResult, interpretResponse, assocLookup, pyIter,
      buildWifiEntries_of_hasWifiKeys wifis hall, Bind.bind, Except.bind]
  · intro hmiss
    obtain ⟨key, hkey, hbe⟩ := buildWifiEntries_missing_key wifis hobj hmiss
    exact ⟨key, hkey, by simp [getWifiList, sendMessageResult, interpretResponse,
      assocLookup, pyIter, hbe, Bind.bind, Except.bind]⟩

theorem wifi_list_key_lookup_error_witness :
    (getWifiList (.respond [("result", Json.arr
        [Json.obj [("ssid", Json.str "home"), ("address", Json.str "aa:bb:cc:dd:ee:ff"),
          ("signal", Json.num 80), ("encrypted", Json.bool true)]])]) =
      .ok [[("ssid", Json.str "home"), ("address", Json.str "aa:bb:cc:dd:ee:ff"),
        ("quality", Json.num 80), ("encrypted", Json.bool true)]]) ∧
    (∃ key, key ∈ ["ssid", "address", "signal", "encrypted"] ∧
      getWifiList (.respond [("result", Json.arr
        [Json.obj [("address", Json.str "aa:bb:cc:dd:ee:ff"), ("signal", Json.num 80),
          ("encrypted", Json.bool true)]])]) = .error (.keyError key)) := by
  constructor
  · exact ((wifi_list_key_lookup_error
      [Json.obj [("ssid", Json.str "home"), ("address", Json.str "aa:bb:cc:dd:ee:ff"),
        ("signal", Json.num 80), ("encrypted", Json.bool true)]]
      (by intro w hw; rw [List.mem_singleton] at hw; exact ⟨_, hw⟩)).1
      (by intro w hw; rw [List.mem_singleton] at hw; subst hw; rfl)).trans rfl
  · refine (wifi_list_key_lookup_error
      [Json.obj [("address", Json.str "aa:bb:cc:dd:ee:ff"), ("signal", Json.num 80),
        ("encrypted", Json.bool true)]]
      (by intro w hw; rw [List.mem_singleton] at hw; exact ⟨_, hw⟩)).2 ?_
    refine ⟨Json.obj [("address", Json.str "aa:bb:cc:dd:ee:ff"), ("signal", Json.num 80),
        ("encrypted", Json.bool true)], ?_, rfl⟩
    simp

/-! ### Configuration shared across transactions (C9)

The socket path used by `sock.connect(self.address)` is the field
`self.address`, assigned from the settings store in `initialize`
(`__init__.py:35`) and assigned again in `on_settings_save`
(`__init__.py:52-54`); the timeout passed to `sock.settimeout` is read from
the settings store on every call (`__init__.py:285`). -/

/-- Values of the two configuration settings the transactions consume. -/
structure DaemonSettings where
  socket : String
  timeout : Int
deriving DecidableEq

/-- Plugin state relevant to a transaction: the cached `self.address` and
the current contents of the settings store. -/
structure PluginState where
  address : String
  settings : DaemonSettings
deriving DecidableEq

/-- `initialize` (`__init__.py:33-38`): `self.address` is read from the
settings store. -/
def initializePlugin (settings : DaemonSettings) : PluginState :=
  { address := settings.socket, settings := settings }

/-- `on_settings_save` (`__init__.py:52-54`): after the settings store is
updated with the saved data, `self.address` is re-read from it. -/
def onSettingsSave (st : PluginState) (saved : DaemonSettings) : PluginState :=
  { address := saved.socket, settings := saved }

/-- Connection parameters used by one `_send_message` transaction
(`__init__.py:284-287`): the socket path is the cached `self.address`, and
the timeout is read from the settings store at call time. -/
def txnParams (st : PluginState) : String × Int :=
  (st.address, st.settings.timeout)

/-- Events that can occur between two transactions of the same client. -/
inductive PluginEvent where
  | save (saved : DaemonSettings) : PluginEvent

/-- State evolution of the plugin across a sequence of events. -/
def runEvents (st : PluginState) : List PluginEvent → PluginState
  | [] => st
  | .save s :: rest => runEvents (onSettingsSave st s) rest

/-- C9 counterexample: the connection parameters are not immutable after
construction.  Saving new settings between two transactions of the same
client changes both the socket path and the timeout used, so the claim that
every transaction uses the same socket path and timeout as every other
transaction of the same client fails at this concrete input. -/
theorem txn_params_not_immutable :
    txnParams (runEvents
        (initializePlugin { socket := "/var/run/netconnectd.sock", timeout := 80 })
        [.save { socket := "/var/run/other.sock", timeout := 10 }]) ≠
      txnParams (initializePlugin { socket := "/var/run/netconnectd.sock", timeout := 80 }) := by
  decide

/-- C9 amended: the socket path a transaction uses is the one read from the
settings store at `initialize` or at the most recent settings save, and the
timeout is read from the settings store at transaction time; consequently
transactions with no intervening settings change use identical parameters,
but a settings save switches subsequent transactions to the newly saved
socket path and timeout. -/
theorem txn_params_follow_settings (s0 saved : DaemonSettings) (st : PluginState) :
    txnParams (initializePlugin s0) = (s0.socket, s0.timeout) ∧
    txnParams (onSettingsSave st saved) = (saved.socket, saved.timeout) ∧
    txnParams (runEvents st []) = txnParams st := by
  exact ⟨rfl, rfl, rfl⟩
